import Mathlib

/-!
Verification of the risk-gated execution and position-lifecycle engine of
a prediction-market trading bot.

The definitions below are a shallow embedding of the Python sources:
  * `src/src/risk/manager.py`      (RiskManager, Portfolio, DailyStats)
  * `src/src/engine/paper.py`      (PaperEngine)
  * `src/src/engine/live.py`       (LiveEngine)
  * `src/src/engine/backtest.py`   (BacktestEngine)
  * `src/src/data/journal.py`      (TradeJournal calibration)

Modelling conventions:
  * Python floats are modelled as exact rationals (`ℚ`).
  * Wall-clock instants (`datetime.now(timezone.utc)`) are modelled as an
    injected parameter `now : ℤ` counting minutes on a global timeline;
    `timedelta(minutes=m)` is `+ m` and the UTC calendar date of an instant
    is its floor-division by 1440 (minutes per day).
  * Python `round(x, n)` (round-half-to-even at decimal position n) is
    `pyRound`, `int(x)` (truncation toward zero) is `pyInt`.
  * Fallible external calls (market data, order submission) are modelled by
    passing their outcome as an explicit argument.
-/

set_option maxRecDepth 40000

namespace TradingBot

/-- Minutes per UTC day; used to map an instant (in minutes) to its date. -/
def minutesPerDay : ℤ := 1440

/-- The UTC calendar date (as a day index) of an instant, mirroring
`datetime.now(timezone.utc).strftime("%Y-%m-%d")`. -/
def dayOf (t : ℤ) : ℤ := t.fdiv minutesPerDay

/-- Python `int()` on a rational: truncation toward zero. -/
def pyInt (q : ℚ) : ℤ := if 0 ≤ q then ⌊q⌋ else ⌈q⌉

/-- Python `round()` to the nearest integer, half-to-even (banker's rounding). -/
def pyRoundInt (q : ℚ) : ℤ :=
  let f := ⌊q⌋
  let r := q - f
  if r < 1/2 then f
  else if 1/2 < r then f + 1
  else if f % 2 = 0 then f else f + 1

/-- Python `round(q, n)`: round-half-to-even at the n-th decimal place. -/
def pyRound (q : ℚ) (n : ℕ) : ℚ :=
  let m : ℚ := ((10 : ℕ) ^ n : ℕ)
  (pyRoundInt (q * m) : ℚ) / m

/-! ## Trade signals (`src/src/strategy/base.py`) -/

/-- The side of a trade signal (`Signal.BUY_YES` / `Signal.BUY_NO`). -/
inductive Side
  | buyYes
  | buyNo
deriving DecidableEq, Repr

/-- `Signal.value`: the string stored in position dictionaries. -/
def Side.val : Side → String
  | .buyYes => "BUY_YES"
  | .buyNo => "BUY_NO"

/-- A strategy-produced trade signal (`TradeSignal` in
`src/src/strategy/base.py`).  The loosely-typed `metadata` dict is modelled
by the concrete keys the engine code reads from it: `strategy`,
`target_token_id` (empty string = absent, hence `Option`), `market_price`
and `token_ids`. -/
structure TradeSignal where
  signal : Side
  marketId : String
  question : String
  confidence : ℚ
  entryPrice : ℚ
  positionSizeUsdc : ℚ
  edge : ℚ
  reason : String
  strategyTag : Option String := none
  targetTokenId : Option String := none
  marketPrice : Option ℚ := none
  tokenIds : List String := []
deriving DecidableEq, Repr

/-! ## RiskManager (`src/src/risk/manager.py`) -/

/-- One entry of `portfolio.open_positions` (the dict built by
`RiskManager.record_trade_entry`). -/
structure RMPosition where
  tradeId : String
  marketId : String
  question : String
  signal : String
  entryPrice : ℚ
  sizeUsdc : ℚ
  timestamp : ℤ
deriving DecidableEq, Repr

/-- One entry of `portfolio.trade_history` (appended by
`RiskManager.record_trade_exit`). -/
structure TradeHistoryEntry where
  identifier : String
  pnl : ℚ
  balanceAfter : ℚ
  timestamp : ℤ
deriving DecidableEq, Repr

/-- `DailyStats` dataclass. -/
structure DailyStats where
  date : ℤ := 0
  tradesToday : ℕ := 0
  dailyPnl : ℚ := 0
  consecutiveLosses : ℕ := 0
  cooldownUntil : Option ℤ := none
deriving DecidableEq, Repr

/-- `DailyStats.reset`: consecutive losses and cooldown intentionally persist. -/
def DailyStats.reset (d : DailyStats) (dateVal : ℤ) : DailyStats :=
  { d with date := dateVal, tradesToday := 0, dailyPnl := 0 }

/-- `Portfolio` dataclass. -/
structure Portfolio where
  balance : ℚ := 0
  startingBalance : ℚ := 0
  peakBalance : ℚ := 0
  openPositions : List RMPosition := []
  tradeHistory : List TradeHistoryEntry := []
deriving DecidableEq, Repr

/-- `Portfolio.total_value`: cash plus invested capital in open positions. -/
def Portfolio.totalValue (p : Portfolio) : ℚ :=
  p.balance + (p.openPositions.map (·.sizeUsdc)).sum

/-- `Portfolio.drawdown` (a percentage). -/
def Portfolio.drawdown (p : Portfolio) : ℚ :=
  if p.peakBalance ≤ 0 then 0
  else (p.peakBalance - p.totalValue) / p.peakBalance * 100

/-- `Portfolio.open_position_count`. -/
def Portfolio.openPositionCount (p : Portfolio) : ℕ := p.openPositions.length

/-- The configuration fields `RiskManager.__init__` extracts from the
`risk` and `trading` sections of the config dict. -/
structure RiskConfig where
  maxDailyLoss : ℚ := 20
  maxDrawdownPct : ℚ := 20
  maxTradesPerDay : ℕ := 10
  circuitBreakerLosses : ℕ := 3
  cooldownMinutes : ℤ := 120
  maxOpenPositions : ℕ := 5
  maxPositionUsdc : ℚ := 25
  minPositionUsdc : ℚ := 1
deriving DecidableEq, Repr

/-- The mutable state of a `RiskManager` instance. -/
structure RiskManager where
  cfg : RiskConfig
  daily : DailyStats := {}
  portfolio : Portfolio := {}
  killSwitch : Bool := false
deriving DecidableEq, Repr

/-- `RiskManager.__init__` (state part: fresh daily stats, fresh portfolio,
kill switch off). -/
def RiskManager.mk0 (cfg : RiskConfig) : RiskManager := { cfg := cfg }

/-- `RiskManager.initialize_portfolio`. -/
def RiskManager.initializePortfolio (rm : RiskManager) (balance : ℚ) (now : ℤ) :
    RiskManager :=
  { rm with
    portfolio := { rm.portfolio with
      balance := balance
      startingBalance := balance
      peakBalance := balance }
    daily := rm.daily.reset (dayOf now) }

/-- The `(allowed, reason)` strings returned by `can_trade` /
`validate_trade`, abstracted to reason codes carrying the values that are
interpolated into the corresponding Python format strings. -/
inductive Reason
  | killSwitchActive
  | cooldownActive (remainingMinutes : ℤ)
  | dailyTradeLimit (maxTrades : ℕ)
  | dailyLossLimit (dailyPnl : ℚ)
  | maxDrawdown (drawdownPct : ℚ)
  | maxOpenPositions (maxPositions : ℕ)
  | insufficientBalance (balance : ℚ)
  | positionTooLarge (size maxSize : ℚ)
  | positionTooSmall (size minSize : ℚ)
  | insufficientBalanceForTrade (size : ℚ)
  | alreadyHavePosition (marketId : String)
  | ok
deriving DecidableEq, Repr

/-- The last five checks of `RiskManager.can_trade` (daily trade limit,
daily loss limit, drawdown, open-position count, minimum balance), which
the code runs on the state left by the rollover/cooldown handling. -/
def RiskManager.canTradeTail (rm : RiskManager) : Bool × Reason :=
  if rm.cfg.maxTradesPerDay ≤ rm.daily.tradesToday then
    (false, .dailyTradeLimit rm.cfg.maxTradesPerDay)
  else if rm.cfg.maxDailyLoss ≤ |rm.daily.dailyPnl| ∧ rm.daily.dailyPnl < 0 then
    (false, .dailyLossLimit rm.daily.dailyPnl)
  else if rm.cfg.maxDrawdownPct ≤ rm.portfolio.drawdown then
    (false, .maxDrawdown rm.portfolio.drawdown)
  else if rm.cfg.maxOpenPositions ≤ rm.portfolio.openPositionCount then
    (false, .maxOpenPositions rm.cfg.maxOpenPositions)
  else if rm.portfolio.balance < rm.cfg.minPositionUsdc then
    (false, .insufficientBalance rm.portfolio.balance)
  else
    (true, .ok)

/-- The cooldown paragraph of `RiskManager.can_trade`: while
`now < cooldown_until` trading is blocked with the cooldown reason
(`remaining = (cooldown_until - now).seconds // 60` is `(cu - now) % 1440`
in whole minutes because `timedelta.seconds` excludes whole days);
otherwise an expired cooldown is cleared, consecutive losses reset, and the
remaining checks run. -/
def RiskManager.canTradeCooldownStep (rm : RiskManager) (now : ℤ) :
    RiskManager × Bool × Reason :=
  match rm.daily.cooldownUntil with
  | some cu =>
    if now < cu then
      (rm, false, .cooldownActive ((cu - now) % minutesPerDay))
    else
      let rm := { rm with daily :=
        { rm.daily with cooldownUntil := none, consecutiveLosses := 0 } }
      (rm, rm.canTradeTail)
  | none => (rm, rm.canTradeTail)

/-- `RiskManager.can_trade`.  Mutates the manager (UTC date rollover;
clearing an expired cooldown), so it returns the updated state alongside
the `(allowed, reason)` pair. -/
def RiskManager.canTrade (rm : RiskManager) (now : ℤ) :
    RiskManager × Bool × Reason :=
  if rm.killSwitch then (rm, false, .killSwitchActive)
  else
    let rm := if rm.daily.date ≠ dayOf now then
        { rm with daily := rm.daily.reset (dayOf now) } else rm
    rm.canTradeCooldownStep now

/-- Whether a signal's strategy tag is on the scaling allowlist
(`crypto_momentum_15m` / `crypto_momentum_1h`). -/
def TradeSignal.isCrypto (s : TradeSignal) : Bool :=
  s.strategyTag == some "crypto_momentum_15m" ||
  s.strategyTag == some "crypto_momentum_1h"

/-- `RiskManager.validate_trade`. -/
def RiskManager.validateTrade (rm : RiskManager) (s : TradeSignal) (now : ℤ) :
    RiskManager × Bool × Reason :=
  let (rm, allowed, reason) := rm.canTrade now
  if !allowed then (rm, false, reason)
  else if rm.cfg.maxPositionUsdc < s.positionSizeUsdc then
    (rm, false, .positionTooLarge s.positionSizeUsdc rm.cfg.maxPositionUsdc)
  else if s.positionSizeUsdc < rm.cfg.minPositionUsdc then
    (rm, false, .positionTooSmall s.positionSizeUsdc rm.cfg.minPositionUsdc)
  else if rm.portfolio.balance < s.positionSizeUsdc then
    (rm, false, .insufficientBalanceForTrade s.positionSizeUsdc)
  else if !s.isCrypto ∧
      rm.portfolio.openPositions.any (fun p => p.marketId == s.marketId) then
    (rm, false, .alreadyHavePosition s.marketId)
  else
    (rm, true, .ok)

/-- `RiskManager.record_trade_entry`. -/
def RiskManager.recordTradeEntry (rm : RiskManager) (s : TradeSignal)
    (tradeId : String) (now : ℤ) : RiskManager :=
  { rm with
    daily := { rm.daily with tradesToday := rm.daily.tradesToday + 1 }
    portfolio := { rm.portfolio with
      balance := rm.portfolio.balance - s.positionSizeUsdc
      openPositions := rm.portfolio.openPositions ++
        [{ tradeId := tradeId
           marketId := s.marketId
           question := s.question
           signal := s.signal.val
           entryPrice := s.entryPrice
           sizeUsdc := s.positionSizeUsdc
           timestamp := now }] } }

/-- `RiskManager.record_trade_exit`. -/
def RiskManager.recordTradeExit (rm : RiskManager) (identifier : String)
    (pnl : ℚ) (now : ℤ) : RiskManager :=
  let remaining := rm.portfolio.openPositions.filter
    (fun p => p.tradeId ≠ identifier ∧ p.marketId ≠ identifier)
  let daily := { rm.daily with dailyPnl := rm.daily.dailyPnl + pnl }
  let port := { rm.portfolio with
    openPositions := remaining
    balance := rm.portfolio.balance + pnl }
  let port := { port with peakBalance := max port.peakBalance port.totalValue }
  let daily :=
    if pnl < 0 then
      let cl := daily.consecutiveLosses + 1
      if rm.cfg.circuitBreakerLosses ≤ cl then
        { daily with consecutiveLosses := cl
                     cooldownUntil := some (now + rm.cfg.cooldownMinutes) }
      else { daily with consecutiveLosses := cl }
    else { daily with consecutiveLosses := 0 }
  { rm with
    daily := daily
    portfolio := { port with tradeHistory := port.tradeHistory ++
      [{ identifier := identifier, pnl := pnl
         balanceAfter := port.balance, timestamp := now }] } }

/-! ## Sessions and positions (`src/src/engine/paper.py`, `src/src/engine/live.py`)

`PaperPosition`/`LivePosition` and `PaperSession`/`LiveSession` share all the
fields the verified operations touch, so a single pair of structures models
both (the live-only fields `token_id`/`order_id` default to `""`). -/

/-- A paper/live position dict as stored in `session.positions`. -/
structure EnginePosition where
  tradeId : String
  marketId : String
  question : String
  signal : String
  tokenId : String := ""
  entryPrice : ℚ
  sizeUsdc : ℚ
  shares : ℚ
  orderId : String := ""
  entryTime : ℤ
  status : String := "open"
  exitTime : Option ℤ := none
  pnl : ℚ := 0
deriving DecidableEq, Repr

/-- A paper/live session (`PaperSession` / `LiveSession`). -/
structure Session where
  sessionId : String
  started : ℤ
  strategy : String
  startingBalance : ℚ
  currentBalance : ℚ := 0
  positions : List EnginePosition := []
  closedTrades : List EnginePosition := []
  totalPnl : ℚ := 0
  totalTrades : ℕ := 0
  wins : ℕ := 0
  losses : ℕ := 0
deriving DecidableEq, Repr

/-- `PaperEngine.load_session` / `LiveEngine.load_session`, restricted to
their effect on the risk manager.  The paper variant re-initializes the
portfolio from the persisted balance and stops there: it never copies the
session's open positions into `risk.portfolio.open_positions`. -/
def paperLoadSession (rm : RiskManager) (sess : Session) (now : ℤ) :
    RiskManager :=
  rm.initializePortfolio sess.currentBalance now

/-- The dict `LiveEngine.load_session` appends to
`risk.portfolio.open_positions` for each open session position.  The Python
dict has no `timestamp` key (and no ledger code reads one), so the field is
fixed at 0 here. -/
def EnginePosition.toRMPosition (p : EnginePosition) : RMPosition :=
  { marketId := p.marketId
    question := p.question
    signal := p.signal
    entryPrice := p.entryPrice
    sizeUsdc := p.sizeUsdc
    tradeId := p.tradeId
    timestamp := 0 }

/-- `LiveEngine.load_session`, restricted to its effect on the risk manager:
re-initialize the portfolio, then append one ledger entry per open session
position.  `initialize_portfolio` does not clear `open_positions`, so the
append accumulates across repeated loads. -/
def liveLoadSession (rm : RiskManager) (sess : Session) (now : ℤ) :
    RiskManager :=
  let rm := rm.initializePortfolio sess.currentBalance now
  { rm with portfolio := { rm.portfolio with
      openPositions := rm.portfolio.openPositions ++
        ((sess.positions.filter (fun p => p.status == "open")).map
          (·.toRMPosition)) } }

/-! ## Resolution at market close

`PaperEngine.check_and_resolve` (src/src/engine/paper.py lines 205-222) and
`LiveEngine.check_and_resolve` (src/src/engine/live.py lines 483-500) run the
same per-position settlement once a market reports closed: a BUY_YES wins
iff the final displayed YES price exceeds 0.5, anything else wins iff it is
below 0.5; the winning payout is `shares * 1.0 - size_usdc`, a loss forfeits
`size_usdc`.  The *exact* pnl is passed to `record_trade_exit`; the copy
stored on the position dict is `round(pnl, 4)`. -/

/-- The win/loss decision both engines make from the final YES price. -/
def resolveWon (signal : String) (finalYes : ℚ) : Bool :=
  if signal = "BUY_YES" then (1/2 : ℚ) < finalYes else finalYes < 1/2

/-- Settle one open position at the final YES price: the updated position
dict and the exact pnl handed to `RiskManager.record_trade_exit`. -/
def resolvePosition (p : EnginePosition) (finalYes : ℚ) (now : ℤ) :
    EnginePosition × ℚ :=
  if resolveWon p.signal finalYes then
    let pnl := p.shares * 1 - p.sizeUsdc
    ({ p with status := "won", pnl := pyRound pnl 4, exitTime := some now }, pnl)
  else
    let pnl := -p.sizeUsdc
    ({ p with status := "lost", pnl := pyRound pnl 4, exitTime := some now }, pnl)

/-! ## LiveEngine.execute_trade (`src/src/engine/live.py` lines 287-445)

The CLOB collaborator is abstracted by passing the outcomes of its calls as
arguments: `tickSizeResp` is the result of `get_tick_size` (`none` = the call
raised, code falls back to 0.01), and `post` is the combined outcome of
`create_order`/`post_order` (an error-bearing response dict, a raised
exception, or an acknowledgement carrying the order id).  The fee-rate
lookup only decorates the submitted order, which the abstraction already
subsumes.  Telegram notification and logging are side-effect-free for the
verified state. -/

/-- Outcome of the order-submission call. -/
inductive PostOrderOutcome
  | errorMsg (msg : String)
  | raised (msg : String)
  | ack (orderId : String)
deriving DecidableEq, Repr

/-- The dict returned by `LiveEngine.execute_trade`: either `{"error": ...}`
(reason abstracted to a code) or the `{"status": "executed", ...}` record. -/
inductive ExecResult
  | error (reason : Reason) (msg : String)
  | executed (tradeId orderId : String) (price shares : ℚ)
deriving DecidableEq, Repr

/-- Whether an `ExecResult` is the error dict. -/
def ExecResult.isError : ExecResult → Bool
  | .error _ _ => true
  | .executed _ _ _ _ => false

/-- The state `execute_trade` may mutate: the engine's enabled flag is fixed
at construction; the risk manager and session are mutable. -/
structure LiveEngineState where
  enabled : Bool
  rm : RiskManager
  session : Session
deriving DecidableEq, Repr

/-- Price/token selection, tick rounding, share sizing, order submission and
booking — the tail of `execute_trade` after the enabled/risk gates. -/
def executeTradeAfterGates (st : LiveEngineState) (s : TradeSignal)
    (tickSizeResp : Option ℚ) (post : PostOrderOutcome) (now : ℤ) :
    ExecResult × LiveEngineState :=
  let tokenPrice : Option (String × ℚ) :=
    match s.targetTokenId with
    | some t => some (t, s.marketPrice.getD s.entryPrice)
    | none =>
      if s.tokenIds.length < 2 then none
      else match s.signal with
        | .buyYes => some (s.tokenIds.headD "", s.entryPrice)
        | .buyNo => some ((s.tokenIds.drop 1).headD "", 1 - s.entryPrice)
  match tokenPrice with
  | none => (.error .ok "Missing token_ids in signal metadata", st)
  | some (tokenId, price0) =>
    let tickSize := tickSizeResp.getD (1/100)
    let price1 := pyRound ((pyRoundInt (price0 / tickSize) : ℚ) * tickSize) 4
    let price := max tickSize (min (1 - tickSize) price1)
    let shares := pyRound (s.positionSizeUsdc / price) 2
    if shares < 1 then (.error .ok "Order too small", st)
    else
      match post with
      | .errorMsg m => (.error .ok m, st)
      | .raised m => (.error .ok m, st)
      | .ack orderId =>
        let tradeId :=
          "LT_" ++ st.session.sessionId ++ "_" ++
            toString (st.session.totalTrades + 1)
        let pos : EnginePosition :=
          { tradeId := tradeId
            marketId := s.marketId
            question := s.question
            signal := s.signal.val
            tokenId := tokenId
            entryPrice := price
            sizeUsdc := s.positionSizeUsdc
            shares := shares
            orderId := orderId
            entryTime := now
            status := "open" }
        let rm := st.rm.recordTradeEntry s tradeId now
        let sess := { st.session with
          positions := st.session.positions ++ [pos]
          totalTrades := st.session.totalTrades + 1
          currentBalance := rm.portfolio.balance }
        (.executed tradeId orderId price shares,
         { st with rm := rm, session := sess })

/-- `LiveEngine.execute_trade`. -/
def executeTrade (st : LiveEngineState) (s : TradeSignal)
    (tickSizeResp : Option ℚ) (post : PostOrderOutcome) (now : ℤ) :
    ExecResult × LiveEngineState :=
  if !st.enabled then (.error .ok "Live trading is not enabled", st)
  else
    let (rm, allowed, reason) := st.rm.validateTrade s now
    let st := { st with rm := rm }
    if !allowed then (.error reason "", st)
    else executeTradeAfterGates st s tickSizeResp post now

/-! ## BacktestEngine (`src/src/engine/backtest.py`)

The Python engine seeds the global `random` module when a seed is given and
draws one `random.random()` per simulated trade.  The PRNG is abstracted as
an arbitrary implementation `RngImpl`: a state type, a seeding function
(what `random.seed(S)` installs — a function of `S` alone) and a `next`
draw.  `run` also receives the ambient PRNG state `g0` that the global
module holds before the call; the determinism claim is precisely that `g0`
is irrelevant once a seed is supplied. -/

/-- An abstract pseudo-random number generator, standing for Python's
global `random` module. -/
structure RngImpl where
  State : Type
  seedFn : ℤ → State
  next : State → ℚ × State

/-- A market snapshot, restricted to the fields the backtest reads. -/
structure Snapshot where
  marketId : String
  question : String
  yesPrice : ℚ
  noPrice : ℚ
  timestamp : String := ""
deriving DecidableEq, Repr

/-- `BacktestTrade` dataclass. -/
structure BacktestTrade where
  marketId : String
  question : String
  signal : String
  entryPrice : ℚ
  positionUsdc : ℚ
  outcome : String
  pnl : ℚ
  fees : ℚ
  edge : ℚ
  strategy : String
  timestamp : String := ""
deriving DecidableEq, Repr

/-- The config fields `BacktestEngine.__init__` extracts. -/
structure BacktestCfg where
  feePct : ℚ := 2
  slippagePct : ℚ := 1
  startingBalance : ℚ := 1000
deriving DecidableEq, Repr

/-- `BacktestEngine._simulate_trade`: slippage-shifted entry, flat fee on
notional, share sizing, and a Bernoulli outcome drawn from the PRNG with
win probability equal to the displayed price of the chosen side. -/
def simulateTrade (cfg : BacktestCfg) (R : RngImpl) (s : TradeSignal)
    (snap : Snapshot) (g : R.State) : BacktestTrade × R.State :=
  let entry := s.entryPrice
  let size := s.positionSizeUsdc
  let slippage := entry * (cfg.slippagePct / 100)
  let effectiveEntry := entry + slippage
  let fees := size * (cfg.feePct / 100)
  let shares := if effectiveEntry ≤ 0 then 0 else (size - fees) / effectiveEntry
  let winProb := match s.signal with
    | .buyYes => snap.yesPrice
    | .buyNo => snap.noPrice
  let (r, g') := R.next g
  let (pnl, outcome) :=
    if r < winProb then (shares * 1 - size, "win") else (-size, "loss")
  ({ marketId := snap.marketId
     question := snap.question
     signal := s.signal.val
     entryPrice := effectiveEntry
     positionUsdc := size
     outcome := outcome
     pnl := pyRound pnl 4
     fees := pyRound fees 4
     edge := s.edge
     strategy := s.strategyTag.getD "unknown"
     timestamp := snap.timestamp }, g')

/-- `BacktestResult` dataclass (only `sharpe_ratio` is a real number, since
it involves a square root). -/
structure BacktestResult where
  strategyName : String
  totalTrades : ℕ := 0
  wins : ℕ := 0
  losses : ℕ := 0
  totalPnl : ℚ := 0
  totalFees : ℚ := 0
  netPnl : ℚ := 0
  winRate : ℚ := 0
  avgWin : ℚ := 0
  avgLoss : ℚ := 0
  profitFactor : ℚ := 0
  maxDrawdown : ℚ := 0
  sharpeRatio : ℝ := 0
  startingBalance : ℚ := 0
  endingBalance : ℚ := 0
  roiPct : ℚ := 0
  trades : List BacktestTrade := []
  equityCurve : List ℚ := []

/-- `np.mean` of a pnl series. -/
def listMean (xs : List ℚ) : ℚ := xs.sum / xs.length

/-- `np.std(xs, ddof=1) ** 2`: the sample variance (the code takes its
square root). -/
def sampleVariance (xs : List ℚ) : ℚ :=
  (xs.map (fun x => (x - listMean xs) ^ 2)).sum / ((xs.length : ℚ) - 1)

/-- The Sharpe-ratio branch of `_compute_metrics` (lines 271-278): for at
least two trades, `mean_pnl / std_pnl` when the sample standard deviation is
positive, else 0.  The Python guard `std_pnl > 0` is expressed as
`0 < sampleVariance`, equivalent since `√v > 0 ↔ 0 < v` for `v ≥ 0`.
NOTE: the source applies no `√252` annualization factor. -/
noncomputable def sharpeOf (pnlList : List ℚ) : ℝ :=
  if 1 < pnlList.length then
    if 0 < sampleVariance pnlList then
      (listMean pnlList : ℝ) / Real.sqrt (sampleVariance pnlList)
    else 0
  else 0

/-- `BacktestEngine._compute_metrics`. -/
noncomputable def computeMetrics (cfg : BacktestCfg) (name : String)
    (trades : List BacktestTrade) (pnlList : List ℚ) (equityCurve : List ℚ)
    (maxDrawdown : ℚ) : BacktestResult :=
  let base : BacktestResult :=
    { strategyName := name
      startingBalance := cfg.startingBalance
      trades := trades
      equityCurve := equityCurve }
  if trades.isEmpty then { base with endingBalance := cfg.startingBalance }
  else
    let wins := (trades.filter (fun t => t.outcome == "win")).length
    let losses := (trades.filter (fun t => t.outcome == "loss")).length
    let totalFees := (trades.map (·.fees)).sum
    let winsPnl := (trades.filter (fun t => t.outcome == "win")).map (·.pnl)
    let lossPnl := (trades.filter (fun t => t.outcome == "loss")).map (·.pnl)
    let totalTrades := trades.length
    let winRate := if totalTrades ≠ 0 then (wins : ℚ) / totalTrades else 0
    let avgWin := if winsPnl ≠ [] then winsPnl.sum / winsPnl.length else 0
    let avgLoss := if lossPnl ≠ [] then lossPnl.sum / lossPnl.length else 0
    let totalWins := winsPnl.sum
    let totalLosses := |lossPnl.sum|
    let profitFactor := if 0 < totalLosses then totalWins / totalLosses else 0
    let totalPnl := pnlList.sum
    let netPnl := totalPnl
    { base with
      totalTrades := totalTrades
      wins := wins
      losses := losses
      totalFees := totalFees
      winRate := winRate
      avgWin := avgWin
      avgLoss := avgLoss
      profitFactor := profitFactor
      totalPnl := totalPnl
      netPnl := netPnl
      endingBalance := cfg.startingBalance + netPnl
      roiPct := netPnl / cfg.startingBalance * 100
      maxDrawdown := maxDrawdown
      sharpeRatio := sharpeOf pnlList }

/-- Accumulator of the snapshot loop in `BacktestEngine.run`. -/
structure RunAcc (σ : Type) where
  balance : ℚ
  peakBalance : ℚ
  maxDrawdown : ℚ
  trades : List BacktestTrade
  equityCurve : List ℚ
  pnlList : List ℚ
  g : σ

/-- One iteration of the snapshot loop of `BacktestEngine.run`. -/
def runStep (cfg : BacktestCfg) (R : RngImpl)
    (strategy : Snapshot → Option TradeSignal) (acc : RunAcc R.State)
    (snap : Snapshot) : RunAcc R.State :=
  match strategy snap with
  | none => acc
  | some sig =>
    if acc.balance < sig.positionSizeUsdc then acc
    else
      let (trade, g') := simulateTrade cfg R sig snap acc.g
      let balance := acc.balance + trade.pnl
      let peak := max acc.peakBalance balance
      { balance := balance
        peakBalance := peak
        maxDrawdown := max acc.maxDrawdown (peak - balance)
        trades := acc.trades ++ [trade]
        equityCurve := acc.equityCurve ++ [balance]
        pnlList := acc.pnlList ++ [trade.pnl]
        g := g' }

/-- `BacktestEngine.run`.  Mirrors `random.seed(seed)` re-seeding the global
PRNG when a seed is supplied; `g0` is the ambient PRNG state before the call
and is used only when `seedArg = none`. -/
noncomputable def backtestRun (cfg : BacktestCfg) (R : RngImpl)
    (strategyName : String) (strategy : Snapshot → Option TradeSignal)
    (snaps : List Snapshot) (seedArg : Option ℤ) (g0 : R.State) :
    BacktestResult :=
  let g : R.State := match seedArg with
    | some s => R.seedFn s
    | none => g0
  let init : RunAcc R.State :=
    { balance := cfg.startingBalance
      peakBalance := cfg.startingBalance
      maxDrawdown := 0
      trades := []
      equityCurve := [cfg.startingBalance]
      pnlList := []
      g := g }
  let acc := snaps.foldl (runStep cfg R strategy) init
  computeMetrics cfg strategyName acc.trades acc.pnlList acc.equityCurve
    acc.maxDrawdown

/-! ## TradeJournal calibration (`src/src/data/journal.py` lines 229-252)

`_calibration_bins` buckets resolution records by
`max(0.0, min(0.9, int(prob * 10) / 10.0))` and reports, per bucket sorted
ascending, the mean predicted probability and the observed win rate.  The
display rounding `round(-, 4)` of the two reported statistics is omitted;
the bucketing and the statistics themselves are exact. -/

/-- A resolution record, restricted to the fields `_calibration_bins`
reads. -/
structure ResolutionRecord where
  predictedProb : ℚ
  outcome : String
  strategy : String := ""
  pnl : ℚ := 0
deriving DecidableEq, Repr

/-- The bucket key `lo = max(0.0, min(0.9, int(prob * 10) / 10.0))`;
the label string is `f"{lo:.1f}-{lo + 0.1:.1f}"`, determined by `lo`. -/
def calibrationBinLo (prob : ℚ) : ℚ :=
  max 0 (min (9/10) ((pyInt (prob * 10) : ℚ) / 10))

/-- One row of the calibration table, keyed by the bucket's lower edge. -/
structure CalibrationBin where
  lo : ℚ
  predicted : ℚ
  actual : ℚ
  count : ℕ
deriving DecidableEq, Repr

/-- `TradeJournal._calibration_bins`.  Python groups records into a dict
keyed by the bucket label and then iterates over `sorted(bins.keys())`;
since every label is `"0.x-0.y"`, lexicographic order on labels is numeric
order on `lo`. -/
def calibrationBins (rs : List ResolutionRecord) : List CalibrationBin :=
  let los :=
    ((rs.map (fun r => calibrationBinLo r.predictedProb)).dedup).mergeSort
      (· ≤ ·)
  los.map (fun lo =>
    let recs := rs.filter (fun r => calibrationBinLo r.predictedProb == lo)
    { lo := lo
      predicted := (recs.map (·.predictedProb)).sum / recs.length
      actual := ((recs.filter (fun r => r.outcome == "won")).length : ℚ) /
        recs.length
      count := recs.length })

/-! ## Concrete scenario inputs and spec-side definitions used by the theorems -/

/-- The §8 scenario signal: one BUY_YES at entry 0.50, size 10. -/
def scenarioSignal : TradeSignal :=
  { signal := .buyYes
    marketId := "m1"
    question := "q"
    confidence := 7/10
    entryPrice := 1/2
    positionSizeUsdc := 10
    edge := 1/20
    reason := "t" }

/-- The manager state of the §8 scenario after the entry: fresh manager
with default config, portfolio initialized at 1000, one BUY_YES of size 10
entered as trade `T1`. -/
def c1Entered : RiskManager :=
  ((RiskManager.mk0 {}).initializePortfolio 1000 0).recordTradeEntry
    scenarioSignal "T1" 0

/-- A persisted session holding exactly one open position (market `m1`,
size 10), as `load_session` would parse it from disk. -/
def c2Session : Session :=
  { sessionId := "s"
    started := 0
    strategy := "value"
    startingBalance := 1000
    currentBalance := 990
    positions := [{ tradeId := "T1", marketId := "m1", question := "q"
                    signal := "BUY_YES", entryPrice := 1/2, sizeUsdc := 10
                    shares := 20, entryTime := 0 }] }

/-- A concrete three-trade backtest trade list with pnl series [2, 0, 4]
(mean 2, sample variance 4), used to settle claim C6. -/
def c6Trades : List BacktestTrade :=
  [ { marketId := "m1", question := "q1", signal := "BUY_YES"
      entryPrice := 51/100, positionUsdc := 10, outcome := "win"
      pnl := 2, fees := 1/5, edge := 1/20, strategy := "value" },
    { marketId := "m2", question := "q2", signal := "BUY_NO"
      entryPrice := 49/100, positionUsdc := 10, outcome := "win"
      pnl := 0, fees := 1/5, edge := 1/20, strategy := "value" },
    { marketId := "m3", question := "q3", signal := "BUY_YES"
      entryPrice := 60/100, positionUsdc := 10, outcome := "win"
      pnl := 4, fees := 1/5, edge := 1/20, strategy := "value" } ]

/-- `(false, r)` for the first failing entry of an ordered check list
(`true` = the check fails), `(true, OK)` when none fails. -/
def firstFailing (checks : List (Bool × Reason)) : Bool × Reason :=
  match checks.find? (fun c => c.1) with
  | some c => (false, c.2)
  | none => (true, .ok)

/-- The spec's cooldown-expiry check on given daily stats: fails exactly
while `now` is strictly before `cooldown_until`. -/
def cooldownCheck (d : DailyStats) (now : ℤ) : Bool × Reason :=
  match d.cooldownUntil with
  | some cu =>
    (decide (now < cu), .cooldownActive ((cu - now) % minutesPerDay))
  | none => (false, .cooldownActive 0)

/-- The five state checks after kill switch and cooldown, in the spec's
priority order, as fail-flag/reason pairs. -/
def tailChecksList (rm : RiskManager) : List (Bool × Reason) :=
  [ (decide (rm.cfg.maxTradesPerDay ≤ rm.daily.tradesToday),
      .dailyTradeLimit rm.cfg.maxTradesPerDay),
    (decide (rm.cfg.maxDailyLoss ≤ |rm.daily.dailyPnl|
        ∧ rm.daily.dailyPnl < 0),
      .dailyLossLimit rm.daily.dailyPnl),
    (decide (rm.cfg.maxDrawdownPct ≤ rm.portfolio.drawdown),
      .maxDrawdown rm.portfolio.drawdown),
    (decide (rm.cfg.maxOpenPositions ≤ rm.portfolio.openPositionCount),
      .maxOpenPositions rm.cfg.maxOpenPositions),
    (decide (rm.portfolio.balance < rm.cfg.minPositionUsdc),
      .insufficientBalance rm.portfolio.balance) ]

/-- The spec's full ordered check list, evaluated on the state after the
UTC date rollover that `can_trade` performs before any check. -/
def specOrderedChecks (rm : RiskManager) (now : ℤ) : List (Bool × Reason) :=
  let rm1 := if rm.daily.date ≠ dayOf now then
      { rm with daily := rm.daily.reset (dayOf now) } else rm
  (rm.killSwitch, .killSwitchActive) :: cooldownCheck rm1.daily now ::
    tailChecksList rm1

end TradingBot

namespace TradingBot

-- Sanity examples for the RiskManager embedding (spec §8 scenario values).
example :
    let cfg : RiskConfig := {}
    let rm := (RiskManager.mk0 cfg).initializePortfolio 1000 0
    let sig : TradeSignal :=
      { signal := .buyYes, marketId := "m1", question := "q", confidence := 7/10
        entryPrice := 1/2, positionSizeUsdc := 10, edge := 1/20, reason := "t" }
    let rm1 := rm.recordTradeEntry sig "T1" 0
    rm1.portfolio.balance = 990 ∧ rm1.portfolio.totalValue = 1000 := by
  with_unfolding_all decide

example :
    let cfg : RiskConfig := {}
    let rm := (RiskManager.mk0 cfg).initializePortfolio 1000 0
    (rm.canTrade 0).2 = (true, .ok) := by with_unfolding_all decide

/-- Claim C1 (code evaluated at the failing input): with
`starting_balance = 1000`, entering one BUY_YES of size 10 and exiting with
`pnl = +10` leaves `balance = 1000` — not the claimed 1010 — because
`record_trade_exit` adds only the pnl back to the balance and never returns
the position's stake; likewise the `pnl = -10` exit leaves 980, not 990, and
`balance + Σ(open sizes) = starting_balance + Σ(pnls)` fails after the
exit. -/
theorem recordTradeExit_leaks_stake :
    c1Entered.portfolio.balance = 990
    ∧ c1Entered.portfolio.totalValue = 1000
    ∧ (c1Entered.recordTradeExit "T1" 10 0).portfolio.balance = 1000
    ∧ (c1Entered.recordTradeExit "T1" 10 0).portfolio.balance ≠ 1010
    ∧ (c1Entered.recordTradeExit "T1" 10 0).portfolio.totalValue ≠ 1000 + 10
    ∧ (c1Entered.recordTradeExit "T1" (-10) 0).portfolio.balance = 980
    ∧ (c1Entered.recordTradeExit "T1" (-10) 0).portfolio.balance ≠ 990
    ∧ (c1Entered.recordTradeExit "T1" (-10) 0).portfolio.totalValue
        ≠ 1000 + (-10) := by
  with_unfolding_all decide

/-- Claim C2 (code evaluated at the failing input): a persisted session with
one open position, reloaded into a freshly constructed risk manager:
`PaperEngine.load_session` restores no ledger entry at all, and calling
`LiveEngine.load_session` twice with no intervening trades duplicates the
entry — so neither engine satisfies "exactly one entry per open position
regardless of reload count". -/
theorem loadSession_ledger_mismatch :
    (paperLoadSession (RiskManager.mk0 {}) c2Session
        0).portfolio.openPositions.length = 0
    ∧ (liveLoadSession (RiskManager.mk0 {}) c2Session
        0).portfolio.openPositions.length = 1
    ∧ (liveLoadSession (liveLoadSession (RiskManager.mk0 {}) c2Session 0)
        c2Session 0).portfolio.openPositions.length = 2 := by
  with_unfolding_all decide

/-- Claim C9 counterexample: `peak_balance` is not non-decreasing across
every operation.  After a session start at 1000 and a losing exit the peak
is 1000, but reloading the persisted session (`load_session` calls
`initialize_portfolio(current_balance)`) resets it to the reloaded balance
900 < 1000. -/
theorem peakBalance_decreases_on_reload :
    let rm0 := (RiskManager.mk0 {}).initializePortfolio 1000 0
    let rm1 := rm0.recordTradeExit "x" (-100) 0
    let sess : Session :=
      { sessionId := "s", started := 0, strategy := "value"
        startingBalance := 1000, currentBalance := rm1.portfolio.balance }
    rm1.portfolio.peakBalance = 1000
    ∧ (paperLoadSession rm1 sess 0).portfolio.peakBalance = 900
    ∧ ¬((1000 : ℚ) ≤ 900) := by
  with_unfolding_all decide

/-- Claim C9 amended: `peak_balance` is non-decreasing across trade entries
and trade exits; session start/reload re-initializes it to the supplied
balance, which may lie below the previous peak. -/
theorem peakBalance_monotone_entry_exit (rm : RiskManager) (s : TradeSignal)
    (tradeId identifier : String) (pnl : ℚ) (t t' : ℤ) :
    rm.portfolio.peakBalance ≤
      (rm.recordTradeEntry s tradeId t).portfolio.peakBalance
    ∧ rm.portfolio.peakBalance ≤
      (rm.recordTradeExit identifier pnl t').portfolio.peakBalance := by
  constructor
  · simp [RiskManager.recordTradeEntry]
  · simp only [RiskManager.recordTradeExit]
    exact le_max_left _ _

/-- Claim C10: at resolution, a BUY_YES position wins iff the final YES
price strictly exceeds 0.5 and a BUY_NO position wins iff it is strictly
below 0.5; at a final YES price of exactly 0.5 every position is resolved
as lost and the pnl passed to `record_trade_exit` is `-size_usdc` (both
engines run this same settlement). -/
theorem resolve_at_half_loses (p : EnginePosition) (finalYes : ℚ) (now : ℤ)
    (h : p.signal = "BUY_YES" ∨ p.signal = "BUY_NO") :
    (resolveWon p.signal finalYes = true ↔
      ((p.signal = "BUY_YES" ∧ 1/2 < finalYes)
        ∨ (p.signal = "BUY_NO" ∧ finalYes < 1/2)))
    ∧ (resolvePosition p (1/2) now).1.status = "lost"
    ∧ (resolvePosition p (1/2) now).2 = -p.sizeUsdc := by
  have hwon : resolveWon p.signal (1/2) = false := by
    unfold resolveWon
    split <;> simp
  refine ⟨?_, ?_, ?_⟩
  · rcases h with h | h <;> rw [h] <;> unfold resolveWon <;> simp
  · unfold resolvePosition
    rw [hwon]
    simp
  · unfold resolvePosition
    rw [hwon]
    simp

/-- Witness for C10 at a concrete position. -/
theorem resolve_at_half_loses_witness :
    let p : EnginePosition :=
      { tradeId := "T1", marketId := "m1", question := "q"
        signal := "BUY_YES", entryPrice := 1/2, sizeUsdc := 10
        shares := 20, entryTime := 0 }
    (resolveWon p.signal (3/4) = true ↔
      ((p.signal = "BUY_YES" ∧ 1/2 < (3/4 : ℚ))
        ∨ (p.signal = "BUY_NO" ∧ (3/4 : ℚ) < 1/2)))
    ∧ (resolvePosition p (1/2) 5).1.status = "lost"
    ∧ (resolvePosition p (1/2) 5).2 = -p.sizeUsdc :=
  resolve_at_half_loses _ (3/4) 5 (Or.inl rfl)

/-- Claim C5: `BacktestEngine.run` is deterministic given its seed.  When a
seed `S` is supplied, `random.seed(S)` replaces the ambient PRNG state, so
two runs over the same snapshots with the same (pure) strategy agree on the
full trade list and hence on trade count, win count and net pnl — whatever
PRNG state `g1`/`g2` the global `random` module held beforehand, and for
every PRNG implementation `R`. -/
theorem backtestRun_deterministic (cfg : BacktestCfg) (R : RngImpl)
    (name : String) (strategy : Snapshot → Option TradeSignal)
    (snaps : List Snapshot) (S : ℤ) (g1 g2 : R.State) :
    (backtestRun cfg R name strategy snaps (some S) g1).trades
      = (backtestRun cfg R name strategy snaps (some S) g2).trades
    ∧ (backtestRun cfg R name strategy snaps (some S) g1).totalTrades
      = (backtestRun cfg R name strategy snaps (some S) g2).totalTrades
    ∧ (backtestRun cfg R name strategy snaps (some S) g1).wins
      = (backtestRun cfg R name strategy snaps (some S) g2).wins
    ∧ (backtestRun cfg R name strategy snaps (some S) g1).netPnl
      = (backtestRun cfg R name strategy snaps (some S) g2).netPnl :=
  ⟨rfl, rfl, rfl, rfl⟩

/-- Claim C6 counterexample: on the pnl series [2, 0, 4] the code's Sharpe
ratio is `mean/σ = 2/2 = 1`, not `mean/σ · √252`: `_compute_metrics` never
multiplies by √252. -/
theorem sharpe_not_annualized :
    (computeMetrics {} "value" c6Trades [2, 0, 4] [1000, 1002, 1002, 1006]
        0).sharpeRatio
      ≠ (listMean [2, 0, 4] : ℝ) / Real.sqrt (sampleVariance [2, 0, 4])
          * Real.sqrt 252 := by
  have hm : listMean [2, 0, 4] = 2 := by with_unfolding_all decide
  have hv : sampleVariance [2, 0, 4] = 4 := by with_unfolding_all decide
  have hsqrt4 : Real.sqrt ((4 : ℚ) : ℝ) = 2 := by
    rw [show (((4 : ℚ) : ℝ)) = 2 ^ 2 by norm_num]
    exact Real.sqrt_sq (by norm_num)
  have h1 : (computeMetrics {} "value" c6Trades [2, 0, 4]
      [1000, 1002, 1002, 1006] 0).sharpeRatio = sharpeOf [2, 0, 4] := rfl
  have h2 : sharpeOf [2, 0, 4] = 1 := by
    rw [sharpeOf, if_pos (by norm_num), if_pos (by rw [hv]; norm_num), hm, hv,
      hsqrt4]
    norm_num
  rw [h1, h2, hm, hv, hsqrt4]
  intro hcontra
  have h252 : Real.sqrt 252 = 1 := by
    have h2' : ((2 : ℚ) : ℝ) = 2 := by norm_num
    rw [h2'] at hcontra
    linarith [hcontra]
  rw [Real.sqrt_eq_one] at h252
  norm_num at h252

/-- Claim C6 amended: for a backtest with at least two trades whose pnl
series has positive sample variance, `BacktestResult.sharpe_ratio` equals
the mean of the per-trade pnl series divided by its sample standard
deviation — with no √252 annualization factor. -/
theorem sharpe_is_mean_over_std (cfg : BacktestCfg) (name : String)
    (trades : List BacktestTrade) (pnlList : List ℚ) (equity : List ℚ)
    (maxDD : ℚ) (hne : trades.isEmpty = false) (hlen : 1 < pnlList.length)
    (hvar : 0 < sampleVariance pnlList) :
    (computeMetrics cfg name trades pnlList equity maxDD).sharpeRatio
      = (listMean pnlList : ℝ) / Real.sqrt (sampleVariance pnlList) := by
  rw [computeMetrics]
  simp only [hne, Bool.false_eq_true, if_false]
  rw [sharpeOf, if_pos hlen, if_pos hvar]

/-- Witness for the amended C6 at the concrete three-trade backtest. -/
theorem sharpe_is_mean_over_std_witness :
    c6Trades.isEmpty = false ∧ 1 < ([2, 0, 4] : List ℚ).length
    ∧ 0 < sampleVariance [2, 0, 4]
    ∧ (computeMetrics {} "value" c6Trades [2, 0, 4] [1000, 1002, 1002, 1006]
          0).sharpeRatio
        = (listMean [2, 0, 4] : ℝ) / Real.sqrt (sampleVariance [2, 0, 4]) :=
  ⟨rfl, by norm_num, by with_unfolding_all decide,
   sharpe_is_mean_over_std {} "value" c6Trades [2, 0, 4]
     [1000, 1002, 1002, 1006] 0 rfl (by norm_num)
     (by with_unfolding_all decide)⟩

/-- The cooldown stage only mutates daily stats; the portfolio is
untouched. -/
theorem canTradeCooldownStep_preserves_portfolio (rm : RiskManager)
    (now : ℤ) :
    (rm.canTradeCooldownStep now).1.portfolio = rm.portfolio := by
  unfold RiskManager.canTradeCooldownStep
  split <;> (try split) <;> rfl

/-- `can_trade` only mutates daily stats (date rollover, cooldown expiry);
the portfolio is untouched. -/
theorem canTrade_preserves_portfolio (rm : RiskManager) (now : ℤ) :
    (rm.canTrade now).1.portfolio = rm.portfolio := by
  unfold RiskManager.canTrade
  split
  · rfl
  · dsimp only
    split
    · exact canTradeCooldownStep_preserves_portfolio _ now
    · exact canTradeCooldownStep_preserves_portfolio _ now

/-- `validate_trade` only mutates daily stats; the portfolio is untouched. -/
theorem validateTrade_preserves_portfolio (rm : RiskManager)
    (s : TradeSignal) (now : ℤ) :
    (rm.validateTrade s now).1.portfolio = rm.portfolio := by
  have h := canTrade_preserves_portfolio rm now
  unfold RiskManager.validateTrade
  rcases hct : rm.canTrade now with ⟨rm', allowed, reason⟩
  rw [hct] at h
  dsimp only
  split_ifs <;> exact h

/-- The tail of `execute_trade` (after the enabled and risk gates) books
nothing when the order submission returns an error-bearing response or
raises: it returns the error dict and leaves the engine state unchanged. -/
theorem afterGates_inert_on_order_failure (st : LiveEngineState)
    (s : TradeSignal) (tickSizeResp : Option ℚ) (post : PostOrderOutcome)
    (now : ℤ) (h : (∃ m, post = .errorMsg m) ∨ (∃ m, post = .raised m)) :
    (executeTradeAfterGates st s tickSizeResp post now).1.isError = true
    ∧ (executeTradeAfterGates st s tickSizeResp post now).2 = st := by
  obtain ⟨m, rfl⟩ | ⟨m, rfl⟩ := h <;>
  · unfold executeTradeAfterGates
    dsimp only
    split
    · exact ⟨rfl, rfl⟩
    · split
      · exact ⟨rfl, rfl⟩
      · exact ⟨rfl, rfl⟩

/-- Claim C8: `LiveEngine.execute_trade` is inert whenever it does not
obtain a non-error acknowledgement — the engine being disabled (a failed
construction gate), the risk validation rejecting the signal, or the order
submission returning an error-bearing response or raising, all yield an
error result with no `record_trade_entry` (the portfolio is unchanged) and
no session mutation. -/
theorem executeTrade_inert_on_failure (st : LiveEngineState)
    (s : TradeSignal) (tickSizeResp : Option ℚ) (post : PostOrderOutcome)
    (now : ℤ)
    (h : st.enabled = false ∨ (st.rm.validateTrade s now).2.1 = false
      ∨ (∃ m, post = .errorMsg m) ∨ (∃ m, post = .raised m)) :
    (executeTrade st s tickSizeResp post now).1.isError = true
    ∧ (executeTrade st s tickSizeResp post now).2.rm.portfolio
        = st.rm.portfolio
    ∧ (executeTrade st s tickSizeResp post now).2.session = st.session := by
  by_cases he : st.enabled = true
  · have hport := validateTrade_preserves_portfolio st.rm s now
    rcases hv : st.rm.validateTrade s now with ⟨rm', allowed, reason⟩
    rw [hv] at hport
    unfold executeTrade
    rw [hv, he]
    cases allowed
    · exact ⟨rfl, hport, rfl⟩
    · have hpost : (∃ m, post = .errorMsg m) ∨ (∃ m, post = .raised m) := by
        rcases h with h | h | h | h
        · rw [he] at h
          exact absurd h (by simp)
        · rw [hv] at h
          exact absurd h (by simp)
        · exact Or.inl h
        · exact Or.inr h
      have hag := afterGates_inert_on_order_failure
        { enabled := true, rm := rm', session := st.session } s tickSizeResp
        post now hpost
      exact ⟨hag.1,
        (congrArg (fun x => x.rm.portfolio) hag.2).trans hport,
        congrArg (fun x => x.session) hag.2⟩
  · have he' : st.enabled = false := by
      simpa using he
    unfold executeTrade
    rw [he']
    exact ⟨rfl, rfl, rfl⟩

/-- Witness for C8: a disabled engine refuses a trade and changes nothing,
even with a well-formed signal and a successful order acknowledgement. -/
theorem executeTrade_inert_witness :
    let st : LiveEngineState :=
      { enabled := false
        rm := (RiskManager.mk0 {}).initializePortfolio 1000 0
        session := { sessionId := "s", started := 0, strategy := "value"
                     startingBalance := 1000, currentBalance := 1000 } }
    (executeTrade st scenarioSignal (some (1/100)) (.ack "o1") 0).1.isError
        = true
    ∧ (executeTrade st scenarioSignal (some (1/100)) (.ack "o1")
          0).2.rm.portfolio = st.rm.portfolio
    ∧ (executeTrade st scenarioSignal (some (1/100)) (.ack "o1")
          0).2.session = st.session :=
  executeTrade_inert_on_failure _ scenarioSignal (some (1/100)) (.ack "o1") 0
    (Or.inl rfl)

/-! ## Claim C3: `can_trade` as a first-failing-check scan

Modelled from the spec's words: `can_trade` runs a fixed-priority list of
checks — kill switch → cooldown expiry → daily trade-count limit → daily
loss limit → drawdown limit → open-position-count limit → minimum balance —
and reports the reason of the first failing check, or `(true, OK)`. -/

/-- A failing head check is the reported reason. -/
theorem firstFailing_cons_true (r : Reason) (rest : List (Bool × Reason)) :
    firstFailing ((true, r) :: rest) = (false, r) := by
  simp [firstFailing, List.find?]

/-- A passing head check defers to the rest of the list. -/
theorem firstFailing_cons_false (r : Reason) (rest : List (Bool × Reason)) :
    firstFailing ((false, r) :: rest) = firstFailing rest := by
  simp [firstFailing, List.find?]

/-- The nested-if tail of `can_trade` is the first-failing scan of the five
remaining checks. -/
theorem canTradeTail_eq_firstFailing (rm : RiskManager) :
    rm.canTradeTail = firstFailing (tailChecksList rm) := by
  unfold RiskManager.canTradeTail tailChecksList
  split_ifs <;> simp [firstFailing, List.find?, *]

/-- The cooldown stage of `can_trade` is the first-failing scan of the
cooldown check followed by the five tail checks. -/
theorem canTradeCooldownStep_eq_firstFailing (rm : RiskManager) (now : ℤ) :
    (rm.canTradeCooldownStep now).2
      = firstFailing (cooldownCheck rm.daily now :: tailChecksList rm) := by
  unfold RiskManager.canTradeCooldownStep cooldownCheck
  rcases hcu : rm.daily.cooldownUntil with _ | cu
  · dsimp only
    rw [firstFailing_cons_false]
    exact canTradeTail_eq_firstFailing rm
  · dsimp only
    by_cases hlt : now < cu
    · rw [if_pos hlt]
      rw [decide_eq_true hlt, firstFailing_cons_true]
    · rw [if_neg hlt]
      rw [decide_eq_false hlt, firstFailing_cons_false]
      exact canTradeTail_eq_firstFailing _

/-- Claim C3: `can_trade` evaluates its checks in the fixed priority order
kill switch → cooldown expiry → daily trade-count limit → daily loss limit
→ drawdown limit → open-position-count limit → minimum balance, returns
`(false, r)` with `r` the reason of the first failing check whenever one
fails, and `(true, OK)` otherwise. -/
theorem canTrade_eq_firstFailing (rm : RiskManager) (now : ℤ) :
    (rm.canTrade now).2 = firstFailing (specOrderedChecks rm now) := by
  unfold RiskManager.canTrade specOrderedChecks
  by_cases hk : rm.killSwitch = true
  · rw [hk]
    rw [firstFailing_cons_true]
    rfl
  · replace hk : rm.killSwitch = false := by simpa using hk
    rw [hk]
    dsimp only
    rw [firstFailing_cons_false]
    exact canTradeCooldownStep_eq_firstFailing _ now

/-! ## Claim C4: circuit breaker and cooldown lifecycle -/

/-- Effect of one losing exit on the loss counter, the cooldown and the
configuration: the counter increments, and the cooldown is set to
`now + cooldown_minutes` exactly when the incremented counter reaches the
circuit-breaker threshold. -/
theorem recordTradeExit_loss_effects (rm : RiskManager) (identifier : String)
    (pnl : ℚ) (t : ℤ) (h : pnl < 0) :
    (rm.recordTradeExit identifier pnl t).daily.consecutiveLosses
        = rm.daily.consecutiveLosses + 1
    ∧ (rm.recordTradeExit identifier pnl t).daily.cooldownUntil
        = (if rm.cfg.circuitBreakerLosses ≤ rm.daily.consecutiveLosses + 1
           then some (t + rm.cfg.cooldownMinutes)
           else rm.daily.cooldownUntil)
    ∧ (rm.recordTradeExit identifier pnl t).cfg = rm.cfg
    ∧ (rm.recordTradeExit identifier pnl t).killSwitch = rm.killSwitch := by
  unfold RiskManager.recordTradeExit
  dsimp only
  rw [if_pos h]
  split_ifs with hcb
  · exact ⟨rfl, rfl, rfl, rfl⟩
  · exact ⟨rfl, rfl, rfl, rfl⟩

/-- Claim C4: with `circuit_breaker_losses = 3`, the third consecutive
losing exit sets `cooldown_until = now + cooldown_minutes`; while the
injected clock is strictly before `cooldown_until`, `can_trade` returns
false with the cooldown reason; at or after `cooldown_until` it clears the
cooldown, resets the loss counter to 0, and answers by the remaining
checks alone (so it returns `(true, OK)` when they all pass). -/
theorem circuitBreaker_cooldown_lifecycle :
    (∀ (rm : RiskManager) (id1 id2 id3 : String) (p1 p2 p3 : ℚ)
        (t1 t2 t3 : ℤ),
      rm.cfg.circuitBreakerLosses = 3 → rm.daily.consecutiveLosses = 0 →
      p1 < 0 → p2 < 0 → p3 < 0 →
      (((rm.recordTradeExit id1 p1 t1).recordTradeExit id2 p2
          t2).recordTradeExit id3 p3 t3).daily.cooldownUntil
        = some (t3 + rm.cfg.cooldownMinutes))
    ∧ (∀ (rm : RiskManager) (T now : ℤ),
      rm.killSwitch = false → rm.daily.cooldownUntil = some T → now < T →
      (rm.canTrade now).2
        = (false, .cooldownActive ((T - now) % minutesPerDay)))
    ∧ (∀ (rm : RiskManager) (T now : ℤ),
      rm.killSwitch = false → rm.daily.cooldownUntil = some T → T ≤ now →
      (rm.canTrade now).1.daily.cooldownUntil = none
      ∧ (rm.canTrade now).1.daily.consecutiveLosses = 0
      ∧ (rm.canTrade now).2 = (rm.canTrade now).1.canTradeTail) := by
  refine ⟨?_, ?_, ?_⟩
  · intro rm id1 id2 id3 p1 p2 p3 t1 t2 t3 hcb hcl hp1 hp2 hp3
    obtain ⟨e1cl, -, e1cfg, -⟩ := recordTradeExit_loss_effects rm id1 p1 t1 hp1
    obtain ⟨e2cl, -, e2cfg, -⟩ :=
      recordTradeExit_loss_effects (rm.recordTradeExit id1 p1 t1) id2 p2 t2 hp2
    obtain ⟨-, e3cd, -, -⟩ :=
      recordTradeExit_loss_effects
        ((rm.recordTradeExit id1 p1 t1).recordTradeExit id2 p2 t2) id3 p3 t3
        hp3
    have hcl1 : (rm.recordTradeExit id1 p1 t1).daily.consecutiveLosses = 1 := by
      rw [e1cl, hcl]
    have hcl2 : ((rm.recordTradeExit id1 p1 t1).recordTradeExit id2 p2
        t2).daily.consecutiveLosses = 2 := by
      rw [e2cl, hcl1]
    have hcfg2 : ((rm.recordTradeExit id1 p1 t1).recordTradeExit id2 p2
        t2).cfg = rm.cfg := by
      rw [e2cfg, e1cfg]
    rw [e3cd, hcl2, hcfg2, hcb, if_pos (by norm_num)]
  · intro rm T now hk hcd hlt
    unfold RiskManager.canTrade
    rw [if_neg (by simp [hk] : ¬rm.killSwitch = true)]
    dsimp only
    have hroll : (if rm.daily.date ≠ dayOf now then
        { rm with daily := rm.daily.reset (dayOf now) }
        else rm).daily.cooldownUntil = some T := by
      split <;> exact hcd
    unfold RiskManager.canTradeCooldownStep
    rw [hroll]
    dsimp only
    rw [if_pos hlt]
  · intro rm T now hk hcd hge
    unfold RiskManager.canTrade
    rw [if_neg (by simp [hk] : ¬rm.killSwitch = true)]
    dsimp only
    have hroll : (if rm.daily.date ≠ dayOf now then
        { rm with daily := rm.daily.reset (dayOf now) }
        else rm).daily.cooldownUntil = some T := by
      split <;> exact hcd
    unfold RiskManager.canTradeCooldownStep
    rw [hroll]
    dsimp only
    rw [if_neg (not_lt.mpr hge)]
    exact ⟨rfl, rfl, rfl⟩

/-- Witness for C4: default config (threshold 3, 120-minute cooldown),
three losing exits at time 0, blocked at minute 60, cleared at minute
120. -/
theorem circuitBreaker_cooldown_witness :
    let rm0 := (RiskManager.mk0 {}).initializePortfolio 1000 0
    let rm3 := ((rm0.recordTradeExit "a" (-1) 0).recordTradeExit "b" (-1)
        0).recordTradeExit "c" (-1) 0
    rm3.daily.cooldownUntil = some ((0 : ℤ) + rm0.cfg.cooldownMinutes)
    ∧ (rm3.canTrade 60).2
        = (false, .cooldownActive ((120 - 60) % minutesPerDay))
    ∧ ((rm3.canTrade 120).1.daily.cooldownUntil = none
       ∧ (rm3.canTrade 120).1.daily.consecutiveLosses = 0
       ∧ (rm3.canTrade 120).2 = (rm3.canTrade 120).1.canTradeTail) := by
  refine ⟨?_, ?_, ?_⟩
  · exact circuitBreaker_cooldown_lifecycle.1 _ "a" "b" "c" (-1) (-1) (-1)
      0 0 0 rfl rfl (by norm_num) (by norm_num) (by norm_num)
  · exact circuitBreaker_cooldown_lifecycle.2.1 _ 120 60 rfl
      (by with_unfolding_all decide) (by norm_num)
  · exact circuitBreaker_cooldown_lifecycle.2.2 _ 120 120 rfl
      (by with_unfolding_all decide) le_rfl

/-! ## Claim C7: journal calibration table -/

/-- Claim C7: the calibration table buckets every resolution record by
`floor(predicted_prob·10)/10` clamped into [0.0, 0.9] (the code's
truncation toward zero agrees with the floor once clamped), with 0.67
landing in the 0.6–0.7 bucket and 1.0 in the 0.9–1.0 bucket; every record's
bucket appears in the table, and each bucket reports the mean predicted
probability and the observed won-fraction of exactly the records it
contains. -/
theorem calibration_buckets_records (rs : List ResolutionRecord) :
    (∀ p : ℚ,
      calibrationBinLo p = max 0 (min (9/10) ((⌊p * 10⌋ : ℚ) / 10)))
    ∧ calibrationBinLo (67/100) = 6/10
    ∧ calibrationBinLo 1 = 9/10
    ∧ (∀ r, r ∈ rs →
        ∃ b ∈ calibrationBins rs, b.lo = calibrationBinLo r.predictedProb)
    ∧ (∀ b, b ∈ calibrationBins rs →
        b.count = (rs.filter
          (fun x => calibrationBinLo x.predictedProb == b.lo)).length
        ∧ 0 < b.count
        ∧ b.predicted = ((rs.filter
            (fun x => calibrationBinLo x.predictedProb == b.lo)).map
              (·.predictedProb)).sum / b.count
        ∧ b.actual = (((rs.filter
            (fun x => calibrationBinLo x.predictedProb == b.lo)).filter
              (fun x => x.outcome == "won")).length : ℚ) / b.count) := by
  refine ⟨?_, ?_, ?_, ?_, ?_⟩
  · intro p
    unfold calibrationBinLo pyInt
    by_cases h : 0 ≤ p * 10
    · rw [if_pos h]
    · rw [if_neg h]
      push_neg at h
      have hceil : (⌈p * 10⌉ : ℚ) ≤ 0 := by
        have hz : ⌈p * 10⌉ ≤ (0 : ℤ) := Int.ceil_le.mpr (by exact_mod_cast h.le)
        exact_mod_cast hz
      have hfloor : (⌊p * 10⌋ : ℚ) ≤ 0 := by
        have hz : ⌊p * 10⌋ ≤ (0 : ℤ) := Int.floor_nonpos h.le
        exact_mod_cast hz
      have h1 : (⌈p * 10⌉ : ℚ) / 10 ≤ 0 :=
        div_nonpos_iff.mpr (Or.inr ⟨hceil, by norm_num⟩)
      have h2 : (⌊p * 10⌋ : ℚ) / 10 ≤ 0 :=
        div_nonpos_iff.mpr (Or.inr ⟨hfloor, by norm_num⟩)
      rw [min_eq_right (h1.trans (by norm_num)),
        min_eq_right (h2.trans (by norm_num)),
        max_eq_left h1, max_eq_left h2]
  · with_unfolding_all decide
  · with_unfolding_all decide
  · intro r hr
    have hmem0 : calibrationBinLo r.predictedProb
        ∈ rs.map (fun x => calibrationBinLo x.predictedProb) :=
      List.mem_map_of_mem _ hr
    have hmem1 : calibrationBinLo r.predictedProb
        ∈ (rs.map (fun x => calibrationBinLo x.predictedProb)).dedup :=
      List.mem_dedup.mpr hmem0
    have hmem2 : calibrationBinLo r.predictedProb
        ∈ ((rs.map (fun x => calibrationBinLo x.predictedProb)).dedup
          ).mergeSort (· ≤ ·) :=
      (List.mergeSort_perm _ _).mem_iff.mpr hmem1
    exact ⟨_, List.mem_map_of_mem _ hmem2, rfl⟩
  · intro b hb
    unfold calibrationBins at hb
    obtain ⟨lo, hlo, rfl⟩ := List.mem_map.mp hb
    have hlomem : lo
        ∈ (rs.map (fun x => calibrationBinLo x.predictedProb)).dedup :=
      (List.mergeSort_perm _ _).mem_iff.mp hlo
    obtain ⟨r, hr, hrlo⟩ := List.mem_map.mp (List.mem_dedup.mp hlomem)
    have hrrecs : r ∈ rs.filter
        (fun x => calibrationBinLo x.predictedProb == lo) := by
      rw [List.mem_filter]
      exact ⟨hr, by simp [hrlo]⟩
    have hpos : 0 < (rs.filter
        (fun x => calibrationBinLo x.predictedProb == lo)).length :=
      List.length_pos.mpr (List.ne_nil_of_mem hrrecs)
    exact ⟨rfl, hpos, rfl, rfl⟩

/-- Witness for C7 on a concrete two-record journal. -/
theorem calibration_buckets_witness :
    let r1 : ResolutionRecord := { predictedProb := 67/100, outcome := "won" }
    let r2 : ResolutionRecord := { predictedProb := 1, outcome := "lost" }
    (∃ b ∈ calibrationBins [r1, r2],
      b.lo = calibrationBinLo r1.predictedProb)
    ∧ ({ lo := 6/10, predicted := 67/100, actual := 1
         count := 1 } : CalibrationBin).count = (([r1, r2]).filter
          (fun x => calibrationBinLo x.predictedProb
            == ({ lo := 6/10, predicted := 67/100, actual := 1
                  count := 1 } : CalibrationBin).lo)).length := by
  refine ⟨?_, ?_⟩
  · exact (calibration_buckets_records _).2.2.2.1 _ (by simp)
  · exact ((calibration_buckets_records _).2.2.2.2 _
      (by with_unfolding_all decide)).1

end TradingBot
